import Mathlib

/-!
Shallow embedding of `src/docker/proxy/filter.py`, a mitmproxy request-filter
script.  Python strings are modelled by Lean `String`, Python `bytes` by
`List Nat` (one entry per byte value), the global whitelist set by a
`List String` carried in an explicit state, and the append-only log file by
an `Option (List LogEntry)` (with `none` meaning the file does not exist
yet).  The mitmproxy side effects (`ctx.log.*`) carry no information used by
the filter and are not modelled.  The fallibility of the best-effort audit
write is modelled by a boolean `writeOk` parameter: when it is `false` the
`open`/`write` in `log_blocked_request` raises and the handler swallows the
exception, leaving the file untouched.
-/

namespace ProxyFilter

/-- Model of Python `s.endswith(t)`: `t` is a suffix of `s` as a sequence of
characters. -/
def py_endswith (s t : String) : Bool :=
  t.data.isSuffixOf s.data

/-- Outcome of opening and JSON-parsing the whitelist file, as seen by
`load_whitelist`: either some step raised an exception, or parsing produced
a JSON object whose `allowedDomains` key is absent (`none`) or holds a list
of domain strings. -/
inductive LoadOutcome where
  | failed : LoadOutcome
  | parsed : Option (List String) → LoadOutcome
deriving DecidableEq, Repr

/-- Embedding of `load_whitelist`: on any exception return the empty set; on
success return `data.get("allowedDomains", [])` as the whitelist.  The
Python `set` of strings is modelled as the underlying list (only membership
is ever queried). -/
def load_whitelist : LoadOutcome → List String
  | LoadOutcome.failed => []
  | LoadOutcome.parsed none => []
  | LoadOutcome.parsed (some doms) => doms

/-- Embedding of `SAFE_METHODS = {"GET", "HEAD", "OPTIONS"}`. -/
def SAFE_METHODS : List String := ["GET", "HEAD", "OPTIONS"]

/-- Embedding of `MUTATION_METHODS = {"POST", "PUT", "DELETE", "PATCH"}`. -/
def MUTATION_METHODS : List String := ["POST", "PUT", "DELETE", "PATCH"]

/-- One JSON line of the blocked-request log, with exactly the six fields
written by `log_blocked_request`. -/
structure LogEntry where
  timestamp : String
  method : String
  host : String
  path : String
  body_size : Nat
  action : String
deriving DecidableEq, Repr

/-- The mutable state the script touches: the whitelist loaded at startup
(the global `ALLOWED_DOMAINS`) and the contents of the log file at
`LOG_PATH` (`none` when the file does not exist). -/
structure ProxyState where
  allowedDomains : List String
  logFile : Option (List LogEntry)
deriving DecidableEq, Repr

/-- Embedding of `log_blocked_request`: build the six-field entry (with the
current UTC timestamp, passed in as `now`) and append it as one line to the
log file, creating the directory and file if absent; any exception from the
write is caught and ignored (`writeOk = false`). -/
def log_blocked_request (writeOk : Bool) (now : String)
    (method host path : String) (body_size : Nat)
    (s : ProxyState) : ProxyState :=
  let log_entry : LogEntry :=
    { timestamp := now
      method := method
      host := host
      path := path
      body_size := body_size
      action := "BLOCKED" }
  if writeOk then
    { s with logFile := some (s.logFile.getD [] ++ [log_entry]) }
  else
    s

/-- Embedding of `is_domain_allowed`: exact membership in the whitelist, or
`host.endswith("." + allowed)` for some whitelisted domain. -/
def is_domain_allowed (allowedDomains : List String) (host : String) : Bool :=
  if allowedDomains.contains host then
    true
  else if allowedDomains.any (fun allowed => py_endswith host ("." ++ allowed)) then
    true
  else
    false

/-- State-passing view of `is_domain_allowed` as the Python function that
reads the global `ALLOWED_DOMAINS` from the process state. -/
def is_domain_allowed_st (s : ProxyState) (host : String) : Bool × ProxyState :=
  (is_domain_allowed s.allowedDomains host, s)

/-- An intercepted request as the hook reads it from `flow.request`:
`content` is `none` when the body is absent (Python `None`). -/
structure Request where
  method : String
  host : String
  path : String
  content : Option (List Nat)
deriving DecidableEq, Repr

/-- Embedding of `len(flow.request.content) if flow.request.content else 0`:
both `None` and the empty byte string are falsy and give 0. -/
def py_body_size : Option (List Nat) → Nat
  | none => 0
  | some b => if b.isEmpty then 0 else b.length

/-- The JSON body attached to a 403 response, with the three fields the hook
serialises. -/
structure BlockedBody where
  error : String
  message : String
  hint : String
deriving DecidableEq, Repr

/-- Model of an HTTP response built by `http.Response.make`. -/
structure Response where
  status_code : Nat
  body : BlockedBody
  content_type : String
deriving DecidableEq, Repr

/-- Embedding of `http.Response.make(status, body, {"Content-Type": ct})`. -/
def Response.make (status_code : Nat) (body : BlockedBody)
    (content_type : String) : Response :=
  { status_code := status_code, body := body, content_type := content_type }

/-- The 403 response the hook attaches to a blocked request. -/
def blocked_403 (method host : String) : Response :=
  Response.make 403
    { error := "Request blocked by network filter"
      message := method ++ " requests to " ++ host ++ " are not allowed"
      hint := "Add this domain to whitelist.json if needed" }
    "application/json"

/-- Embedding of the `request` hook.  The returned pair is the state after
the call and the value of `flow.response` on return (`none` when the hook
attached no response, so the request is forwarded). -/
def request (writeOk : Bool) (now : String) (s : ProxyState)
    (r : Request) : ProxyState × Option Response :=
  let method := r.method
  let host := r.host
  let path := r.path
  if SAFE_METHODS.contains method then
    (s, none)
  else if MUTATION_METHODS.contains method then
    if is_domain_allowed s.allowedDomains host then
      (s, none)
    else
      let body_size := py_body_size r.content
      let s' := log_blocked_request writeOk now method host path body_size s
      (s', some (blocked_403 method host))
  else
    (s, none)

/-! ### Helper lemmas -/

/-- Membership in `MUTATION_METHODS` enumerated. -/
lemma mutation_method_eq {m : String} (h : m ∈ MUTATION_METHODS) :
    m = "POST" ∨ m = "PUT" ∨ m = "DELETE" ∨ m = "PATCH" := by
  simpa [MUTATION_METHODS] using h

/-- Membership in `SAFE_METHODS` enumerated. -/
lemma safe_method_eq {m : String} (h : m ∈ SAFE_METHODS) :
    m = "GET" ∨ m = "HEAD" ∨ m = "OPTIONS" := by
  simpa [SAFE_METHODS] using h

/-- A mutating method is not a safe method. -/
lemma safe_contains_eq_false_of_mutation {m : String} (h : m ∈ MUTATION_METHODS) :
    SAFE_METHODS.contains m = false := by
  rcases mutation_method_eq h with h' | h' | h' | h' <;> subst h' <;> decide

/-- Membership in `MUTATION_METHODS` as a `contains` test. -/
lemma mutation_contains_eq_true {m : String} (h : m ∈ MUTATION_METHODS) :
    MUTATION_METHODS.contains m = true := by
  rcases mutation_method_eq h with h' | h' | h' | h' <;> subst h' <;> decide

/-- Membership in `SAFE_METHODS` as a `contains` test. -/
lemma safe_contains_eq_true {m : String} (h : m ∈ SAFE_METHODS) :
    SAFE_METHODS.contains m = true := by
  rcases safe_method_eq h with h' | h' | h' <;> subst h' <;> decide

/-- The hook on a mutating-method request reduces to the whitelist check. -/
lemma request_mutation_eq (writeOk : Bool) (now : String) (s : ProxyState)
    (r : Request) (h : r.method ∈ MUTATION_METHODS) :
    request writeOk now s r =
      if is_domain_allowed s.allowedDomains r.host then (s, none)
      else (log_blocked_request writeOk now r.method r.host r.path
              (py_body_size r.content) s,
            some (blocked_403 r.method r.host)) := by
  simp only [request]
  rw [safe_contains_eq_false_of_mutation h, mutation_contains_eq_true h]
  simp

/-- Logical characterisation of `is_domain_allowed`: exact membership or a
dotted-suffix match. -/
lemma is_domain_allowed_iff (wl : List String) (host : String) :
    is_domain_allowed wl host = true ↔
      host ∈ wl ∨ ∃ d ∈ wl, ("." ++ d).data <:+ host.data := by
  simp [is_domain_allowed, py_endswith, List.any_eq_true,
    List.isSuffixOf_iff_suffix]

/-- The code's body-size expression equals the length of the body bytes, with
0 for an absent body. -/
lemma py_body_size_eq (c : Option (List Nat)) :
    py_body_size c = (c.getD []).length := by
  cases c with
  | none => rfl
  | some b => cases b <;> simp [py_body_size]

/-! ### Claim theorems -/

/-- Claim C1: for every intercepted request whose method is one of POST, PUT,
DELETE, or PATCH, the request hook blocks the request (attaches an HTTP 403
response with a JSON body and writes a blocked-request audit entry) if and
only if `is_domain_allowed host` is false; if the host is allowed, the hook
returns with no response attached and writes no audit entry. -/
theorem claim_C1_mutation_blocked_iff_not_allowed
    (now : String) (s : ProxyState) (r : Request)
    (h : r.method ∈ MUTATION_METHODS) :
    (request true now s r =
        (log_blocked_request true now r.method r.host r.path
          (py_body_size r.content) s,
         some (blocked_403 r.method r.host))
      ↔ is_domain_allowed s.allowedDomains r.host = false)
    ∧ (is_domain_allowed s.allowedDomains r.host = true →
        request true now s r = (s, none)) := by
  rw [request_mutation_eq true now s r h]
  cases hd : is_domain_allowed s.allowedDomains r.host <;>
    simp [hd, Prod.ext_iff]

/-- Witness for C1 at a concrete blocked request. -/
theorem claim_C1_witness :
    "POST" ∈ MUTATION_METHODS ∧
    ((request true "2024-01-01T00:00:00" ⟨["example.com"], none⟩
        ⟨"POST", "blocked.com", "/p", some [1, 2, 3]⟩ =
          (log_blocked_request true "2024-01-01T00:00:00" "POST" "blocked.com"
            "/p" (py_body_size (some [1, 2, 3])) ⟨["example.com"], none⟩,
           some (blocked_403 "POST" "blocked.com"))
        ↔ is_domain_allowed ["example.com"] "blocked.com" = false)
      ∧ (is_domain_allowed ["example.com"] "blocked.com" = true →
          request true "2024-01-01T00:00:00" ⟨["example.com"], none⟩
            ⟨"POST", "blocked.com", "/p", some [1, 2, 3]⟩ =
            (⟨["example.com"], none⟩, none))) :=
  ⟨by decide,
   claim_C1_mutation_blocked_iff_not_allowed "2024-01-01T00:00:00"
     ⟨["example.com"], none⟩ ⟨"POST", "blocked.com", "/p", some [1, 2, 3]⟩
     (by decide)⟩

/-- Claim C2: `is_domain_allowed host` returns true if and only if `host` is
exactly equal to some domain of the whitelist, or `host` ends with the string
`"." ++ d` for some whitelisted domain `d`. -/
theorem claim_C2_is_domain_allowed_characterisation
    (wl : List String) (host : String) :
    is_domain_allowed wl host = true ↔
      host ∈ wl ∨ ∃ d ∈ wl, ("." ++ d).data <:+ host.data :=
  is_domain_allowed_iff wl host

/-- Claim C3: for every intercepted request whose method is GET, HEAD, or
OPTIONS, the request hook allows the request unconditionally: no response is
attached and no audit entry is written, regardless of host, whitelist, path
and body. -/
theorem claim_C3_safe_methods_pass
    (writeOk : Bool) (now : String) (s : ProxyState) (r : Request)
    (h : r.method ∈ SAFE_METHODS) :
    request writeOk now s r = (s, none) := by
  simp only [request]
  rw [safe_contains_eq_true h]
  simp

/-- Witness for C3 at a concrete GET request to a non-whitelisted host. -/
theorem claim_C3_witness :
    "GET" ∈ SAFE_METHODS ∧
    request false "2024-01-01T00:00:00" ⟨[], some []⟩
        ⟨"GET", "anything.com", "/q", some [1]⟩ =
      (⟨[], some []⟩, none) :=
  ⟨by decide,
   claim_C3_safe_methods_pass false "2024-01-01T00:00:00" ⟨[], some []⟩
     ⟨"GET", "anything.com", "/q", some [1]⟩ (by decide)⟩

/-- Claim C4: for every blocked request, exactly one entry is appended to the
log file (created if absent), holding exactly the fields timestamp, method,
host, path, body_size and action, where action is the fixed tag BLOCKED,
method, host and path come from the request, and body_size is the byte length
of the body (0 when the body is absent). -/
theorem claim_C4_blocked_log_entry
    (now : String) (s : ProxyState) (r : Request)
    (h : r.method ∈ MUTATION_METHODS)
    (hb : is_domain_allowed s.allowedDomains r.host = false) :
    (request true now s r).1.logFile =
      some (s.logFile.getD [] ++
        [{ timestamp := now, method := r.method, host := r.host,
           path := r.path, body_size := (r.content.getD []).length,
           action := "BLOCKED" }]) := by
  rw [request_mutation_eq true now s r h]
  simp [hb, log_blocked_request, py_body_size_eq]

/-- Witness for C4: a DELETE to a non-whitelisted host with no body appends
the expected single entry to an absent log file. -/
theorem claim_C4_witness :
    "DELETE" ∈ MUTATION_METHODS ∧
    is_domain_allowed ["example.com"] "x.com" = false ∧
    (request true "2024-01-01T00:00:00" ⟨["example.com"], none⟩
        ⟨"DELETE", "x.com", "/d", none⟩).1.logFile =
      some [⟨"2024-01-01T00:00:00", "DELETE", "x.com", "/d", 0, "BLOCKED"⟩] :=
  ⟨by decide, by decide,
   claim_C4_blocked_log_entry "2024-01-01T00:00:00" ⟨["example.com"], none⟩
     ⟨"DELETE", "x.com", "/d", none⟩ (by decide) (by decide)⟩

/-- Claim C5 counterexample: the whitelisted domain "example.com" is a plain
(undotted) suffix of the host "evilexample.com", yet a POST to that host is
blocked with the 403 response, so bare-suffix matches are not allowed. -/
theorem claim_C5_counterexample :
    "example.com" ∈ (["example.com"] : List String) ∧
    "example.com".data <:+ "evilexample.com".data ∧
    (request true "2024-01-01T00:00:00" ⟨["example.com"], none⟩
        ⟨"POST", "evilexample.com", "/", none⟩).2 =
      some (blocked_403 "POST" "evilexample.com") := by
  decide

/-- Claim C5 as amended: a mutating-method request is allowed whenever its
host exactly matches a whitelisted domain or ends with a dot followed by a
whitelisted domain (for example host "sub.example.com" with whitelisted
domain "example.com"); a host of which the domain is merely an undotted
suffix is not covered. -/
theorem claim_C5_amended_dotted_suffix_allowed
    (writeOk : Bool) (now : String) (s : ProxyState) (r : Request)
    (h : r.method ∈ MUTATION_METHODS)
    (hd : r.host ∈ s.allowedDomains ∨
      ∃ d ∈ s.allowedDomains, ("." ++ d).data <:+ r.host.data) :
    request writeOk now s r = (s, none) := by
  rw [request_mutation_eq writeOk now s r h,
    (is_domain_allowed_iff s.allowedDomains r.host).mpr hd]
  simp

/-- Witness for amended C5: a PUT to "sub.example.com" with whitelisted
domain "example.com" is passed through untouched. -/
theorem claim_C5_amended_witness :
    "PUT" ∈ MUTATION_METHODS ∧
    ("sub.example.com" ∈ (["example.com"] : List String) ∨
      ∃ d ∈ (["example.com"] : List String),
        ("." ++ d).data <:+ "sub.example.com".data) ∧
    request true "2024-01-01T00:00:00" ⟨["example.com"], none⟩
        ⟨"PUT", "sub.example.com", "/u", some [7]⟩ =
      (⟨["example.com"], none⟩, none) :=
  ⟨by decide, by decide,
   claim_C5_amended_dotted_suffix_allowed true "2024-01-01T00:00:00"
     ⟨["example.com"], none⟩ ⟨"PUT", "sub.example.com", "/u", some [7]⟩
     (by decide) (by decide)⟩

/-- Claim C6: the blocking decision is independent of the success of the
audit write: when the write raises (modelled by `writeOk = false`) the error
is swallowed, the log file is untouched, and the hook still attaches the same
403 response it attaches when the write succeeds. -/
theorem claim_C6_block_independent_of_write
    (now : String) (s : ProxyState) (r : Request)
    (h : r.method ∈ MUTATION_METHODS)
    (hb : is_domain_allowed s.allowedDomains r.host = false) :
    (request false now s r).2 = some (blocked_403 r.method r.host) ∧
    (request false now s r).2 = (request true now s r).2 ∧
    (request false now s r).1 = s := by
  rw [request_mutation_eq false now s r h, request_mutation_eq true now s r h]
  simp [hb, log_blocked_request]

/-- Witness for C6: a PATCH to a non-whitelisted host is blocked with the
same 403 even when the log write fails, and the state is unchanged. -/
theorem claim_C6_witness :
    "PATCH" ∈ MUTATION_METHODS ∧
    is_domain_allowed ["example.com"] "y.com" = false ∧
    ((request false "2024-01-01T00:00:00" ⟨["example.com"], some []⟩
        ⟨"PATCH", "y.com", "/w", none⟩).2 =
      some (blocked_403 "PATCH" "y.com") ∧
    (request false "2024-01-01T00:00:00" ⟨["example.com"], some []⟩
        ⟨"PATCH", "y.com", "/w", none⟩).2 =
      (request true "2024-01-01T00:00:00" ⟨["example.com"], some []⟩
        ⟨"PATCH", "y.com", "/w", none⟩).2 ∧
    (request false "2024-01-01T00:00:00" ⟨["example.com"], some []⟩
        ⟨"PATCH", "y.com", "/w", none⟩).1 = ⟨["example.com"], some []⟩) :=
  ⟨by decide, by decide,
   claim_C6_block_independent_of_write "2024-01-01T00:00:00"
     ⟨["example.com"], some []⟩ ⟨"PATCH", "y.com", "/w", none⟩
     (by decide) (by decide)⟩

/-- Claim C7: the whitelist is read-only after load: the request hook,
`is_domain_allowed` and `log_blocked_request` leave the set of allowed
domains unchanged, whatever the request and whether or not the audit write
succeeds. -/
theorem claim_C7_whitelist_read_only
    (writeOk : Bool) (now ts m hs p : String) (bs : Nat)
    (s : ProxyState) (r : Request) (host : String) :
    (request writeOk now s r).1.allowedDomains = s.allowedDomains ∧
    (log_blocked_request writeOk ts m hs p bs s).allowedDomains =
      s.allowedDomains ∧
    (is_domain_allowed_st s host).2.allowedDomains = s.allowedDomains := by
  refine ⟨?_, ?_, rfl⟩ <;>
    simp only [request, log_blocked_request] <;> split_ifs <;> rfl

/-- Claim C8: `is_domain_allowed` is a pure deterministic function of the
host and the loaded whitelist: two states agreeing on the whitelist give the
same boolean for the same host, and the call leaves the state untouched. -/
theorem claim_C8_is_domain_allowed_pure
    (s₁ s₂ : ProxyState) (host : String)
    (h : s₁.allowedDomains = s₂.allowedDomains) :
    (is_domain_allowed_st s₁ host).1 = (is_domain_allowed_st s₂ host).1 ∧
    (is_domain_allowed_st s₁ host).2 = s₁ := by
  simp [is_domain_allowed_st, h]

/-- Witness for C8: two states with the same whitelist but different log
files agree on a concrete host, without touching the state. -/
theorem claim_C8_witness :
    (ProxyState.mk ["example.com"] none).allowedDomains =
      (ProxyState.mk ["example.com"] (some [])).allowedDomains ∧
    ((is_domain_allowed_st ⟨["example.com"], none⟩ "a.example.com").1 =
      (is_domain_allowed_st ⟨["example.com"], some []⟩ "a.example.com").1 ∧
    (is_domain_allowed_st ⟨["example.com"], none⟩ "a.example.com").2 =
      ⟨["example.com"], none⟩) :=
  ⟨rfl,
   claim_C8_is_domain_allowed_pure ⟨["example.com"], none⟩
     ⟨["example.com"], some []⟩ "a.example.com" rfl⟩

/-- Claim C9: whitelist loading fails closed: on an exception while opening
or parsing, or on a missing allowedDomains key, `load_whitelist` returns the
empty set, and then every mutating-method request to every host is blocked
with the 403 response. -/
theorem claim_C9_fail_closed (oc : LoadOutcome)
    (hoc : oc = LoadOutcome.failed ∨ oc = LoadOutcome.parsed none) :
    load_whitelist oc = [] ∧
    ∀ (writeOk : Bool) (now : String) (lf : Option (List LogEntry))
      (r : Request), r.method ∈ MUTATION_METHODS →
      (request writeOk now ⟨load_whitelist oc, lf⟩ r).2 =
        some (blocked_403 r.method r.host) := by
  have hw : load_whitelist oc = [] := by
    rcases hoc with h | h <;> subst h <;> rfl
  refine ⟨hw, ?_⟩
  intro writeOk now lf r hm
  rw [request_mutation_eq writeOk now ⟨load_whitelist oc, lf⟩ r hm]
  simp [hw, is_domain_allowed]

/-- Witness for C9: with a failed load, a POST to an arbitrary host is
blocked with the 403. -/
theorem claim_C9_witness :
    (LoadOutcome.failed = LoadOutcome.failed ∨
      LoadOutcome.failed = LoadOutcome.parsed none) ∧
    "POST" ∈ MUTATION_METHODS ∧
    (request true "2024-01-01T00:00:00"
        ⟨load_whitelist LoadOutcome.failed, none⟩
        ⟨"POST", "host.com", "/", none⟩).2 =
      some (blocked_403 "POST" "host.com") :=
  ⟨Or.inl rfl, by decide,
   (claim_C9_fail_closed LoadOutcome.failed (Or.inl rfl)).2 true
     "2024-01-01T00:00:00" none ⟨"POST", "host.com", "/", none⟩ (by decide)⟩

/-- Claim C10: method matching is exact and case-sensitive, and a method in
neither fixed set is passed through: the hook attaches no response and writes
no audit entry, regardless of the host. -/
theorem claim_C10_unknown_method_passthrough
    (writeOk : Bool) (now : String) (s : ProxyState) (r : Request)
    (h1 : r.method ∉ SAFE_METHODS) (h2 : r.method ∉ MUTATION_METHODS) :
    request writeOk now s r = (s, none) := by
  have hs : SAFE_METHODS.contains r.method = false := by simpa using h1
  have hm : MUTATION_METHODS.contains r.method = false := by simpa using h2
  simp only [request]
  rw [hs, hm]
  simp

/-- Witness for C10: lowercase "post" to a non-whitelisted host is passed
through untouched. -/
theorem claim_C10_witness :
    "post" ∉ SAFE_METHODS ∧ "post" ∉ MUTATION_METHODS ∧
    request true "2024-01-01T00:00:00" ⟨["example.com"], none⟩
        ⟨"post", "x.com", "/", some [1]⟩ =
      (⟨["example.com"], none⟩, none) :=
  ⟨by decide, by decide,
   claim_C10_unknown_method_passthrough true "2024-01-01T00:00:00"
     ⟨["example.com"], none⟩ ⟨"post", "x.com", "/", some [1]⟩
     (by decide) (by decide)⟩

end ProxyFilter
